import Mathlib

/-!
Shallow embedding of the `iso8859-10` crate: the single-byte character type
`IsoLatin6Char`, the byte/scalar codec (`map_byte_to_char`, `map_char_to_byte`),
the character classification predicate `is_digit`, the owned validated buffer
`IsoLatin6String`, and the display routine of the borrowed view `IsoLatin6Str`.

Bytes and Unicode scalar values are modelled as `Nat`; wrapping `u8`
arithmetic is written out explicitly with `% 256`, and fallible conversions
return `Except`.
-/

set_option maxRecDepth 100000

namespace Iso885910

/-- Error type of `src/iso8859-10/src/char.rs` (`IsoLatin6CharError`):
`Undefined` for bytes the standard leaves unspecified, `Invalid` for
bytes/scalars with no table entry. -/
inductive IsoLatin6CharError where
  | Undefined
  | Invalid
deriving DecidableEq

/-- Modelled from the spec: the crate's `map` module (static table
`DECODE_MAP`) is not under `src/`. Per spec section 3 it maps the offset
`byte - 0xA0` (96 entries) to a 16-bit scalar value, with sentinel `0`
meaning undefined. The entries are the ISO8859-10 upper-half assignment,
exactly the character list `LAST_PART_OF_ISO8859` that the crate's own
tests in `src/iso8859-10/src/char.rs` pin down. -/
def DECODE_MAP : List Nat := [
  0x00A0, 0x0104, 0x0112, 0x0122, 0x012A, 0x0128, 0x0136, 0x00A7, 0x013B, 0x0110, 0x0160, 0x0166, 0x017D, 0x00AD, 0x016A, 0x014A,
  0x00B0, 0x0105, 0x0113, 0x0123, 0x012B, 0x0129, 0x0137, 0x00B7, 0x013C, 0x0111, 0x0161, 0x0167, 0x017E, 0x2015, 0x016B, 0x014B,
  0x0100, 0x00C1, 0x00C2, 0x00C3, 0x00C4, 0x00C5, 0x00C6, 0x012E, 0x010C, 0x00C9, 0x0118, 0x00CB, 0x0116, 0x00CD, 0x00CE, 0x00CF,
  0x00D0, 0x0145, 0x014C, 0x00D3, 0x00D4, 0x00D5, 0x00D6, 0x0168, 0x00D8, 0x0172, 0x00DA, 0x00DB, 0x00DC, 0x00DD, 0x00DE, 0x00DF,
  0x0101, 0x00E1, 0x00E2, 0x00E3, 0x00E4, 0x00E5, 0x00E6, 0x012F, 0x010D, 0x00E9, 0x0119, 0x00EB, 0x0117, 0x00ED, 0x00EE, 0x00EF,
  0x00F0, 0x0146, 0x014D, 0x00F3, 0x00F4, 0x00F5, 0x00F6, 0x0169, 0x00F8, 0x0173, 0x00FA, 0x00FB, 0x00FC, 0x00FD, 0x00FE, 0x0138]

/-- Modelled from the spec: the crate's `map` module (static table `HI_MAP`)
is not under `src/`. Per spec section 3 it maps the high byte of a 16-bit
scalar to a page index of `ENCODE_MAP`, with absence (out of bounds) meaning
no page. The scalars of `DECODE_MAP` have high bytes `0x00`, `0x01` and
`0x20`, so those get real pages (`0`, `1`, `2`); the remaining high bytes up
to `0x20` point at an all-sentinel page (`3`), and high bytes above `0x20`
are absent. -/
def HI_MAP : List Nat := [
  0x0000, 0x0001, 0x0003, 0x0003, 0x0003, 0x0003, 0x0003, 0x0003, 0x0003, 0x0003, 0x0003, 0x0003, 0x0003, 0x0003, 0x0003, 0x0003,
  0x0003, 0x0003, 0x0003, 0x0003, 0x0003, 0x0003, 0x0003, 0x0003, 0x0003, 0x0003, 0x0003, 0x0003, 0x0003, 0x0003, 0x0003, 0x0003,
  0x0002]

/-- Modelled from the spec: the crate's `map` module (static table
`ENCODE_MAP`) is not under `src/`. Per spec section 3 it is a flattened
array of 256-entry pages holding the target byte for each low byte of a
scalar, with sentinel `0x0000` meaning unmapped; the entry for a mapped
scalar `c` is the unique byte `b` with `DECODE_MAP[b - 0xA0] = c` (the
spec's round-trip bijection on the valid subset). Pages: `0` for high byte
`0x00`, `1` for `0x01`, `2` for `0x20`, `3` all-sentinel. -/
def ENCODE_MAP : List Nat := [
  0x0000, 0x0000, 0x0000, 0x0000, 0x0000, 0x0000, 0x0000, 0x0000, 0x0000, 0x0000, 0x0000, 0x0000, 0x0000, 0x0000, 0x0000, 0x0000,
  0x0000, 0x0000, 0x0000, 0x0000, 0x0000, 0x0000, 0x0000, 0x0000, 0x0000, 0x0000, 0x0000, 0x0000, 0x0000, 0x0000, 0x0000, 0x0000,
  0x0000, 0x0000, 0x0000, 0x0000, 0x0000, 0x0000, 0x0000, 0x0000, 0x0000, 0x0000, 0x0000, 0x0000, 0x0000, 0x0000, 0x0000, 0x0000,
  0x0000, 0x0000, 0x0000, 0x0000, 0x0000, 0x0000, 0x0000, 0x0000, 0x0000, 0x0000, 0x0000, 0x0000, 0x0000, 0x0000, 0x0000, 0x0000,
  0x0000, 0x0000, 0x0000, 0x0000, 0x0000, 0x0000, 0x0000, 0x0000, 0x0000, 0x0000, 0x0000, 0x0000, 0x0000, 0x0000, 0x0000, 0x0000,
  0x0000, 0x0000, 0x0000, 0x0000, 0x0000, 0x0000, 0x0000, 0x0000, 0x0000, 0x0000, 0x0000, 0x0000, 0x0000, 0x0000, 0x0000, 0x0000,
  0x0000, 0x0000, 0x0000, 0x0000, 0x0000, 0x0000, 0x0000, 0x0000, 0x0000, 0x0000, 0x0000, 0x0000, 0x0000, 0x0000, 0x0000, 0x0000,
  0x0000, 0x0000, 0x0000, 0x0000, 0x0000, 0x0000, 0x0000, 0x0000, 0x0000, 0x0000, 0x0000, 0x0000, 0x0000, 0x0000, 0x0000, 0x0000,
  0x0000, 0x0000, 0x0000, 0x0000, 0x0000, 0x0000, 0x0000, 0x0000, 0x0000, 0x0000, 0x0000, 0x0000, 0x0000, 0x0000, 0x0000, 0x0000,
  0x0000, 0x0000, 0x0000, 0x0000, 0x0000, 0x0000, 0x0000, 0x0000, 0x0000, 0x0000, 0x0000, 0x0000, 0x0000, 0x0000, 0x0000, 0x0000,
  0x00A0, 0x0000, 0x0000, 0x0000, 0x0000, 0x0000, 0x0000, 0x00A7, 0x0000, 0x0000, 0x0000, 0x0000, 0x0000, 0x00AD, 0x0000, 0x0000,
  0x00B0, 0x0000, 0x0000, 0x0000, 0x0000, 0x0000, 0x0000, 0x00B7, 0x0000, 0x0000, 0x0000, 0x0000, 0x0000, 0x0000, 0x0000, 0x0000,
  0x0000, 0x00C1, 0x00C2, 0x00C3, 0x00C4, 0x00C5, 0x00C6, 0x0000, 0x0000, 0x00C9, 0x0000, 0x00CB, 0x0000, 0x00CD, 0x00CE, 0x00CF,
  0x00D0, 0x0000, 0x0000, 0x00D3, 0x00D4, 0x00D5, 0x00D6, 0x0000, 0x00D8, 0x0000, 0x00DA, 0x00DB, 0x00DC, 0x00DD, 0x00DE, 0x00DF,
  0x0000, 0x00E1, 0x00E2, 0x00E3, 0x00E4, 0x00E5, 0x00E6, 0x0000, 0x0000, 0x00E9, 0x0000, 0x00EB, 0x0000, 0x00ED, 0x00EE, 0x00EF,
  0x00F0, 0x0000, 0x0000, 0x00F3, 0x00F4, 0x00F5, 0x00F6, 0x0000, 0x00F8, 0x0000, 0x00FA, 0x00FB, 0x00FC, 0x00FD, 0x00FE, 0x0000,
  0x00C0, 0x00E0, 0x0000, 0x0000, 0x00A1, 0x00B1, 0x0000, 0x0000, 0x0000, 0x0000, 0x0000, 0x0000, 0x00C8, 0x00E8, 0x0000, 0x0000,
  0x00A9, 0x00B9, 0x00A2, 0x00B2, 0x0000, 0x0000, 0x00CC, 0x00EC, 0x00CA, 0x00EA, 0x0000, 0x0000, 0x0000, 0x0000, 0x0000, 0x0000,
  0x0000, 0x0000, 0x00A3, 0x00B3, 0x0000, 0x0000, 0x0000, 0x0000, 0x00A5, 0x00B5, 0x00A4, 0x00B4, 0x0000, 0x0000, 0x00C7, 0x00E7,
  0x0000, 0x0000, 0x0000, 0x0000, 0x0000, 0x0000, 0x00A6, 0x00B6, 0x00FF, 0x0000, 0x0000, 0x00A8, 0x00B8, 0x0000, 0x0000, 0x0000,
  0x0000, 0x0000, 0x0000, 0x0000, 0x0000, 0x00D1, 0x00F1, 0x0000, 0x0000, 0x0000, 0x00AF, 0x00BF, 0x00D2, 0x00F2, 0x0000, 0x0000,
  0x0000, 0x0000, 0x0000, 0x0000, 0x0000, 0x0000, 0x0000, 0x0000, 0x0000, 0x0000, 0x0000, 0x0000, 0x0000, 0x0000, 0x0000, 0x0000,
  0x00AA, 0x00BA, 0x0000, 0x0000, 0x0000, 0x0000, 0x00AB, 0x00BB, 0x00D7, 0x00F7, 0x00AE, 0x00BE, 0x0000, 0x0000, 0x0000, 0x0000,
  0x0000, 0x0000, 0x00D9, 0x00F9, 0x0000, 0x0000, 0x0000, 0x0000, 0x0000, 0x0000, 0x0000, 0x0000, 0x0000, 0x00AC, 0x00BC, 0x0000,
  0x0000, 0x0000, 0x0000, 0x0000, 0x0000, 0x0000, 0x0000, 0x0000, 0x0000, 0x0000, 0x0000, 0x0000, 0x0000, 0x0000, 0x0000, 0x0000,
  0x0000, 0x0000, 0x0000, 0x0000, 0x0000, 0x0000, 0x0000, 0x0000, 0x0000, 0x0000, 0x0000, 0x0000, 0x0000, 0x0000, 0x0000, 0x0000,
  0x0000, 0x0000, 0x0000, 0x0000, 0x0000, 0x0000, 0x0000, 0x0000, 0x0000, 0x0000, 0x0000, 0x0000, 0x0000, 0x0000, 0x0000, 0x0000,
  0x0000, 0x0000, 0x0000, 0x0000, 0x0000, 0x0000, 0x0000, 0x0000, 0x0000, 0x0000, 0x0000, 0x0000, 0x0000, 0x0000, 0x0000, 0x0000,
  0x0000, 0x0000, 0x0000, 0x0000, 0x0000, 0x0000, 0x0000, 0x0000, 0x0000, 0x0000, 0x0000, 0x0000, 0x0000, 0x0000, 0x0000, 0x0000,
  0x0000, 0x0000, 0x0000, 0x0000, 0x0000, 0x0000, 0x0000, 0x0000, 0x0000, 0x0000, 0x0000, 0x0000, 0x0000, 0x0000, 0x0000, 0x0000,
  0x0000, 0x0000, 0x0000, 0x0000, 0x0000, 0x0000, 0x0000, 0x0000, 0x0000, 0x0000, 0x0000, 0x0000, 0x0000, 0x0000, 0x0000, 0x0000,
  0x0000, 0x0000, 0x0000, 0x0000, 0x0000, 0x0000, 0x0000, 0x0000, 0x0000, 0x0000, 0x0000, 0x0000, 0x0000, 0x0000, 0x0000, 0x0000,
  0x0000, 0x0000, 0x0000, 0x0000, 0x0000, 0x0000, 0x0000, 0x0000, 0x0000, 0x0000, 0x0000, 0x0000, 0x0000, 0x0000, 0x0000, 0x0000,
  0x0000, 0x0000, 0x0000, 0x0000, 0x0000, 0x00BD, 0x0000, 0x0000, 0x0000, 0x0000, 0x0000, 0x0000, 0x0000, 0x0000, 0x0000, 0x0000,
  0x0000, 0x0000, 0x0000, 0x0000, 0x0000, 0x0000, 0x0000, 0x0000, 0x0000, 0x0000, 0x0000, 0x0000, 0x0000, 0x0000, 0x0000, 0x0000,
  0x0000, 0x0000, 0x0000, 0x0000, 0x0000, 0x0000, 0x0000, 0x0000, 0x0000, 0x0000, 0x0000, 0x0000, 0x0000, 0x0000, 0x0000, 0x0000,
  0x0000, 0x0000, 0x0000, 0x0000, 0x0000, 0x0000, 0x0000, 0x0000, 0x0000, 0x0000, 0x0000, 0x0000, 0x0000, 0x0000, 0x0000, 0x0000,
  0x0000, 0x0000, 0x0000, 0x0000, 0x0000, 0x0000, 0x0000, 0x0000, 0x0000, 0x0000, 0x0000, 0x0000, 0x0000, 0x0000, 0x0000, 0x0000,
  0x0000, 0x0000, 0x0000, 0x0000, 0x0000, 0x0000, 0x0000, 0x0000, 0x0000, 0x0000, 0x0000, 0x0000, 0x0000, 0x0000, 0x0000, 0x0000,
  0x0000, 0x0000, 0x0000, 0x0000, 0x0000, 0x0000, 0x0000, 0x0000, 0x0000, 0x0000, 0x0000, 0x0000, 0x0000, 0x0000, 0x0000, 0x0000,
  0x0000, 0x0000, 0x0000, 0x0000, 0x0000, 0x0000, 0x0000, 0x0000, 0x0000, 0x0000, 0x0000, 0x0000, 0x0000, 0x0000, 0x0000, 0x0000,
  0x0000, 0x0000, 0x0000, 0x0000, 0x0000, 0x0000, 0x0000, 0x0000, 0x0000, 0x0000, 0x0000, 0x0000, 0x0000, 0x0000, 0x0000, 0x0000,
  0x0000, 0x0000, 0x0000, 0x0000, 0x0000, 0x0000, 0x0000, 0x0000, 0x0000, 0x0000, 0x0000, 0x0000, 0x0000, 0x0000, 0x0000, 0x0000,
  0x0000, 0x0000, 0x0000, 0x0000, 0x0000, 0x0000, 0x0000, 0x0000, 0x0000, 0x0000, 0x0000, 0x0000, 0x0000, 0x0000, 0x0000, 0x0000,
  0x0000, 0x0000, 0x0000, 0x0000, 0x0000, 0x0000, 0x0000, 0x0000, 0x0000, 0x0000, 0x0000, 0x0000, 0x0000, 0x0000, 0x0000, 0x0000,
  0x0000, 0x0000, 0x0000, 0x0000, 0x0000, 0x0000, 0x0000, 0x0000, 0x0000, 0x0000, 0x0000, 0x0000, 0x0000, 0x0000, 0x0000, 0x0000,
  0x0000, 0x0000, 0x0000, 0x0000, 0x0000, 0x0000, 0x0000, 0x0000, 0x0000, 0x0000, 0x0000, 0x0000, 0x0000, 0x0000, 0x0000, 0x0000,
  0x0000, 0x0000, 0x0000, 0x0000, 0x0000, 0x0000, 0x0000, 0x0000, 0x0000, 0x0000, 0x0000, 0x0000, 0x0000, 0x0000, 0x0000, 0x0000,
  0x0000, 0x0000, 0x0000, 0x0000, 0x0000, 0x0000, 0x0000, 0x0000, 0x0000, 0x0000, 0x0000, 0x0000, 0x0000, 0x0000, 0x0000, 0x0000,
  0x0000, 0x0000, 0x0000, 0x0000, 0x0000, 0x0000, 0x0000, 0x0000, 0x0000, 0x0000, 0x0000, 0x0000, 0x0000, 0x0000, 0x0000, 0x0000,
  0x0000, 0x0000, 0x0000, 0x0000, 0x0000, 0x0000, 0x0000, 0x0000, 0x0000, 0x0000, 0x0000, 0x0000, 0x0000, 0x0000, 0x0000, 0x0000,
  0x0000, 0x0000, 0x0000, 0x0000, 0x0000, 0x0000, 0x0000, 0x0000, 0x0000, 0x0000, 0x0000, 0x0000, 0x0000, 0x0000, 0x0000, 0x0000,
  0x0000, 0x0000, 0x0000, 0x0000, 0x0000, 0x0000, 0x0000, 0x0000, 0x0000, 0x0000, 0x0000, 0x0000, 0x0000, 0x0000, 0x0000, 0x0000,
  0x0000, 0x0000, 0x0000, 0x0000, 0x0000, 0x0000, 0x0000, 0x0000, 0x0000, 0x0000, 0x0000, 0x0000, 0x0000, 0x0000, 0x0000, 0x0000,
  0x0000, 0x0000, 0x0000, 0x0000, 0x0000, 0x0000, 0x0000, 0x0000, 0x0000, 0x0000, 0x0000, 0x0000, 0x0000, 0x0000, 0x0000, 0x0000,
  0x0000, 0x0000, 0x0000, 0x0000, 0x0000, 0x0000, 0x0000, 0x0000, 0x0000, 0x0000, 0x0000, 0x0000, 0x0000, 0x0000, 0x0000, 0x0000,
  0x0000, 0x0000, 0x0000, 0x0000, 0x0000, 0x0000, 0x0000, 0x0000, 0x0000, 0x0000, 0x0000, 0x0000, 0x0000, 0x0000, 0x0000, 0x0000,
  0x0000, 0x0000, 0x0000, 0x0000, 0x0000, 0x0000, 0x0000, 0x0000, 0x0000, 0x0000, 0x0000, 0x0000, 0x0000, 0x0000, 0x0000, 0x0000,
  0x0000, 0x0000, 0x0000, 0x0000, 0x0000, 0x0000, 0x0000, 0x0000, 0x0000, 0x0000, 0x0000, 0x0000, 0x0000, 0x0000, 0x0000, 0x0000,
  0x0000, 0x0000, 0x0000, 0x0000, 0x0000, 0x0000, 0x0000, 0x0000, 0x0000, 0x0000, 0x0000, 0x0000, 0x0000, 0x0000, 0x0000, 0x0000,
  0x0000, 0x0000, 0x0000, 0x0000, 0x0000, 0x0000, 0x0000, 0x0000, 0x0000, 0x0000, 0x0000, 0x0000, 0x0000, 0x0000, 0x0000, 0x0000,
  0x0000, 0x0000, 0x0000, 0x0000, 0x0000, 0x0000, 0x0000, 0x0000, 0x0000, 0x0000, 0x0000, 0x0000, 0x0000, 0x0000, 0x0000, 0x0000,
  0x0000, 0x0000, 0x0000, 0x0000, 0x0000, 0x0000, 0x0000, 0x0000, 0x0000, 0x0000, 0x0000, 0x0000, 0x0000, 0x0000, 0x0000, 0x0000,
  0x0000, 0x0000, 0x0000, 0x0000, 0x0000, 0x0000, 0x0000, 0x0000, 0x0000, 0x0000, 0x0000, 0x0000, 0x0000, 0x0000, 0x0000, 0x0000]

/-- Validity of a Unicode scalar value, mirroring Rust `char::from_u32`:
below the surrogate range or between it and `0x110000`. -/
def isValidScalar (c : Nat) : Bool :=
  decide (c < 0xD800 ∨ (0xE000 ≤ c ∧ c < 0x110000))

/-- Embedding of `map_byte_to_char` (`src/iso8859-10/src/char.rs`):
identity on `0x00..=0x7F`, `Undefined` on `0x80..=0x9F`, otherwise a
`DECODE_MAP` lookup with sentinel `0` and out-of-range and non-scalar
results all mapping to `Invalid`. -/
def map_byte_to_char (byte : Nat) : Except IsoLatin6CharError Nat :=
  if byte ≤ 0x7F then .ok byte
  else if byte ≤ 0x9F then .error .Undefined
  else
    match DECODE_MAP.get? (byte - 0xA0) with
    | some c =>
        if c = 0 then .error .Invalid
        else if isValidScalar c then .ok c else .error .Invalid
    | none => .error .Invalid

/-- Embedding of `map_byte_to_char_unchecked` (`src/iso8859-10/src/char.rs`):
the unchecked fast path; on bytes in `0x80..=0x9F` the Rust code is
undefined behavior, modelled here by the table default `0`. -/
def map_byte_to_char_unchecked (byte : Nat) : Nat :=
  if byte ≤ 0x7F then byte else DECODE_MAP.getD (byte - 0xA0) 0

/-- Embedding of `map_char_to_byte` (`src/iso8859-10/src/char.rs`). The
Rust code first truncates the scalar with `ch as u32 as u16`, modelled by
`% 65536`; then identity on `0x00..=0x7F`, `Invalid` on `0x80..=0x9F`, and
otherwise the two-level `HI_MAP` / `ENCODE_MAP` lookup with sentinel
`0x0000` and absent pages mapping to `Invalid`. -/
def map_char_to_byte (ch : Nat) : Except IsoLatin6CharError Nat :=
  let c := ch % 65536
  if c ≤ 0x7F then .ok c
  else if c ≤ 0x9F then .error .Invalid
  else
    let hi := c / 256
    let lo := c % 256
    match HI_MAP.get? hi with
    | none => .error .Invalid
    | some p =>
        match ENCODE_MAP.get? (p * 256 + lo) with
        | none => .error .Invalid
        | some code => if code ≠ 0 then .ok code else .error .Invalid

/-- Embedding of the `IsoLatin6Char` wrapper (`#[repr(transparent)]` around
a `u8`): a single byte. -/
structure IsoLatin6Char where
  byte : Nat
deriving DecidableEq

/-- Embedding of `TryFrom<u8> for IsoLatin6Char`: `0x00..=0x7F` and
`0xA0..=0xFF` transmute the byte unchanged, `0x80..=0x9F` is `Undefined`.
No table lookup is performed. -/
def tryFromByte (b : Nat) : Except IsoLatin6CharError IsoLatin6Char :=
  if b ≤ 0x7F then .ok ⟨b⟩
  else if b ≤ 0x9F then .error .Undefined
  else .ok ⟨b⟩

/-- Embedding of `From<IsoLatin6Char> for u8`: returns the wrapped byte. -/
def u8FromChar (c : IsoLatin6Char) : Nat := c.byte

/-- Embedding of `From<IsoLatin6Char> for char`: the scalar produced by
`map_byte_to_char_unchecked` on the wrapped byte. -/
def charFromIso (c : IsoLatin6Char) : Nat := map_byte_to_char_unchecked c.byte

/-- Embedding of `TryFrom<char> for IsoLatin6Char`: `map_char_to_byte`
wrapped in the character type. -/
def tryFromChar (ch : Nat) : Except IsoLatin6CharError IsoLatin6Char :=
  (map_char_to_byte ch).map IsoLatin6Char.mk

/-- Embedding of `fmt::Display for IsoLatin6Char`: the Rust code converts
the raw byte with `self.0.into()` — the `From<u8> for char` conversion,
whose scalar value equals the byte — and writes that single char. The
written scalar is therefore the byte value itself, not the ISO8859-10
decoding. -/
def isoCharDisplay (c : IsoLatin6Char) : Nat := c.byte

/-- Embedding of `IsoLatin6Char::is_digit` (`src/iso8859-10/src/char.rs`).
`u8` wrapping subtraction is `(x + 256 - y) % 256`, `saturating_add` is
capped at `255`. The `assert!` for `radix > 36` (reached only when
`radix > 10`) is modelled by `none`; a normal return is `some`. -/
def is_digit (b : Nat) (radix : Nat) : Option Bool :=
  let digit := (b + 256 - 0x30) % 256
  if radix > 10 then
    if radix > 36 then none
    else if digit < 10 then some true
    else
      let lowered := min ((Nat.lor b 0x20 + 256 - 0x61) % 256 + 10) 255
      some (decide (lowered < radix))
  else some (decide (digit < radix))

/-- Alignment requested of a formatter (`core::fmt::Alignment`): `left` is
start, `right` is end. -/
inductive Alignment where
  | left
  | right
  | center
deriving DecidableEq

/-- The content pass of `fmt::Display for IsoLatin6Str`
(`src/iso8859-10/src/str.rs`, inner fn `write`): each byte is written via
the character's own display rule, one scalar per byte. -/
def writeChars (bytes : List Nat) : List Nat :=
  bytes.map (fun b => isoCharDisplay ⟨b⟩)

/-- Embedding of `fmt::Display for IsoLatin6Str`
(`src/iso8859-10/src/str.rs`): with no requested alignment the content is
written as is; with an alignment, `width.unwrap_or(0)` minus the content
length (saturating) fill characters are written after (left), before
(right), or split around the content (center, odd remainder trailing).
The output is the list of written scalars. -/
def isoStrDisplay (bytes : List Nat) (align : Option Alignment)
    (width : Option Nat) (fill : Nat) : List Nat :=
  match align with
  | none => writeChars bytes
  | some a =>
    let w := width.getD 0
    let rem := w - bytes.length
    match a with
    | .left => writeChars bytes ++ List.replicate rem fill
    | .right => List.replicate rem fill ++ writeChars bytes
    | .center =>
        let half := rem / 2
        List.replicate half fill ++ writeChars bytes
          ++ List.replicate (if rem % 2 = 0 then half else half + 1) fill

/-- A Rust `Vec<u8>`: its element list together with its capacity. A
literal `vec![..]` allocates exactly its length. -/
structure RustVec where
  data : List Nat
  cap : Nat
deriving DecidableEq

/-- Error type `FromIso8859_1Error` of `src/iso8859-10/src/lib.rs`: carries
no information. -/
structure FromIso8859_1Error where
deriving DecidableEq

/-- Embedding of `IsoLatin6String` (`src/iso8859-10/src/lib.rs`): an owned
byte vector. -/
structure IsoLatin6String where
  bytes : RustVec
deriving DecidableEq

/-- Embedding of `IsoLatin6String::from_iso8859_10`
(`src/iso8859-10/src/lib.rs`): its body is `todo!()`, which panics
unconditionally. A panic is modelled as `none`, so no input ever yields an
`Ok` or `Err` value. -/
def from_iso8859_10 (_vec : RustVec) :
    Option (Except FromIso8859_1Error IsoLatin6String) :=
  none

/-- Embedding of `IsoLatin6String::into_bytes`: returns the owned vector
unchanged (no copy). -/
def into_bytes (s : IsoLatin6String) : RustVec := s.bytes

/-- Length of an `IsoLatin6String` (pass-through to the vector). -/
def strLen (s : IsoLatin6String) : Nat := s.bytes.data.length

/-- Embedding of `IsoLatin6String::capacity` (pass-through to the vector). -/
def capacity (s : IsoLatin6String) : Nat := s.bytes.cap

instance exceptDecEq {ε α : Type} [DecidableEq ε] [DecidableEq α] :
    DecidableEq (Except ε α)
  | .error a, .error b =>
      if h : a = b then isTrue (by rw [h])
      else isFalse (fun hh => h (by injection hh))
  | .error _, .ok _ => isFalse (fun hh => Except.noConfusion hh)
  | .ok _, .error _ => isFalse (fun hh => Except.noConfusion hh)
  | .ok a, .ok b =>
      if h : a = b then isTrue (by rw [h])
      else isFalse (fun hh => h (by injection hh))

/-- Boolean round-trip check for one byte: whenever decoding succeeds, the
scalar it yields encodes back to that byte. -/
def roundTripB (b : Nat) : Bool :=
  match map_byte_to_char b with
  | .ok c => decide (map_char_to_byte c = .ok b)
  | .error _ => true

lemma roundTripB_all : ∀ b, b < 256 → roundTripB b = true := by decide

/-- Claim C1: for every byte `b` for which decode succeeds (`0x00..=0x7F`
or `0xA0..=0xFF` with a defined table entry), encoding the scalar value
that `b` decodes to returns exactly `b`:
`map_char_to_byte (map_byte_to_char b) = Ok b`, a bijection on the valid
subset. -/
theorem decode_then_encode_roundtrip (b c : Nat) (hb : b < 256)
    (h : map_byte_to_char b = .ok c) : map_char_to_byte c = .ok b := by
  have hall := roundTripB_all b hb
  unfold roundTripB at hall
  rw [h] at hall
  exact of_decide_eq_true hall

/-- Witness for claim C1 at byte `0xA1`, which decodes to `U+0104`. -/
theorem decode_then_encode_roundtrip_witness :
    (0xA1 : Nat) < 256 ∧ map_byte_to_char 0xA1 = .ok 0x104 ∧
      map_char_to_byte 0x104 = .ok 0xA1 :=
  ⟨by decide, by decide, decode_then_encode_roundtrip 0xA1 0x104 (by decide) (by decide)⟩

/-- Claim C2, refuting evidence: the `Display` implementation converts the
raw byte with the `u8` to `char` conversion (`self.0.into()`), whose scalar
is the byte value itself, instead of the ISO8859-10 decoding used by
`char::from`. For the valid character with byte `0xA1` it therefore writes
`U+00A1` while the character represents `U+0104` (and the crate's own
`trait_tests::debug` expects the latter); byte `0xC6` agrees only because
Latin-1 and ISO8859-10 coincide there. -/
theorem display_writes_latin1_scalar_at_0xA1 :
    tryFromByte 0xA1 = .ok ⟨0xA1⟩ ∧
      isoCharDisplay ⟨0xA1⟩ = 0xA1 ∧ charFromIso ⟨0xA1⟩ = 0x104 ∧
      isoCharDisplay ⟨0xA1⟩ ≠ charFromIso ⟨0xA1⟩ ∧
      isoCharDisplay ⟨0xC6⟩ = 0xC6 ∧ charFromIso ⟨0xC6⟩ = 0xC6 := by
  decide

/-- Claim C3, refuting evidence: `map_char_to_byte` truncates the scalar to
16 bits (`ch as u32 as u16`) before the range checks, so the valid scalar
`U+10104` — above `0xFFFF` and without an ISO8859-10 code point — encodes
to `Ok 0xA1` instead of `Err Invalid`. -/
theorem encode_truncates_scalar_above_0xFFFF :
    isValidScalar 0x10104 = true ∧ 0xFFFF < (0x10104 : Nat) ∧
      map_char_to_byte 0x10104 = .ok 0xA1 := by
  decide

/-- Claim C4: for every byte in `0x80..=0x9F` decoding fails with
`Undefined` (both `TryFrom<u8>` and `map_byte_to_char`), and for every
byte outside that range decoding succeeds. -/
theorem decode_undefined_gap :
    ∀ b, b < 256 →
      ((0x80 ≤ b ∧ b ≤ 0x9F) →
        tryFromByte b = .error .Undefined ∧ map_byte_to_char b = .error .Undefined) ∧
      (¬(0x80 ≤ b ∧ b ≤ 0x9F) →
        (tryFromByte b).isOk = true ∧ (map_byte_to_char b).isOk = true) := by
  decide

/-- Witness for claim C4 at the undefined byte `0x90`. -/
theorem decode_undefined_gap_witness :
    tryFromByte 0x90 = .error .Undefined ∧ map_byte_to_char 0x90 = .error .Undefined :=
  (decode_undefined_gap 0x90 (by decide)).1 (by decide)

/-- Claim C5, refuting evidence: the body of
`IsoLatin6String::from_iso8859_10` is `todo!()`, which panics on every
input, so on the byte vector `[0x41, 0x42, 0x43]` no value is returned at
all — in particular not `Ok` with length 3 and capacity 3 — even though
the crate's own test `from_iso8859_1_works` expects `Ok`. -/
theorem from_iso8859_10_panics_on_abc :
    from_iso8859_10 ⟨[0x41, 0x42, 0x43], 3⟩ = none ∧
      ∀ vec : RustVec, from_iso8859_10 vec = none :=
  ⟨rfl, fun _ => rfl⟩

/-- Claim C6: with a requested alignment and a minimum width `w` greater
than the content length, display emits exactly `w` scalars: the content
plus `w - len` fill characters, after the content for start (left)
alignment, before it for end (right), and split around it for center with
the odd remaining pad trailing; when the content is at least `w` long no
truncation occurs. -/
theorem display_aligned_pads_to_width (bytes : List Nat) (w fill : Nat) :
    (bytes.length < w →
      (∀ a : Alignment, (isoStrDisplay bytes (some a) (some w) fill).length = w) ∧
      isoStrDisplay bytes (some .left) (some w) fill
        = writeChars bytes ++ List.replicate (w - bytes.length) fill ∧
      isoStrDisplay bytes (some .right) (some w) fill
        = List.replicate (w - bytes.length) fill ++ writeChars bytes ∧
      isoStrDisplay bytes (some .center) (some w) fill
        = List.replicate ((w - bytes.length) / 2) fill ++ writeChars bytes
            ++ List.replicate (w - bytes.length - (w - bytes.length) / 2) fill) ∧
    (w ≤ bytes.length →
      ∀ a : Alignment, isoStrDisplay bytes (some a) (some w) fill = writeChars bytes) := by
  have hw : (writeChars bytes).length = bytes.length := by simp [writeChars]
  have hif : ∀ r : Nat, (if r % 2 = 0 then r / 2 else r / 2 + 1) = r - r / 2 := by
    intro r
    rcases Nat.mod_two_eq_zero_or_one r with h2 | h2 <;> simp [h2] <;> omega
  constructor
  · intro h
    refine ⟨fun a => ?_, ?_, ?_, ?_⟩
    · cases a <;> simp [isoStrDisplay, hw, hif] <;> omega
    · rfl
    · rfl
    · simp [isoStrDisplay, hif]
  · intro h a
    have hz : w - bytes.length = 0 := Nat.sub_eq_zero_of_le h
    cases a <;> simp [isoStrDisplay, hz]

/-- Witness for claim C6 with content `[0x41, 0x42]`, width 5, center
alignment and fill `0x20`. -/
theorem display_aligned_pads_to_width_witness :
    (isoStrDisplay [0x41, 0x42] (some .center) (some 5) 0x20).length = 5 :=
  ((display_aligned_pads_to_width [0x41, 0x42] 5 0x20).1 (by decide)).1 .center

/-- Claim C7: `is_digit` panics (the `assert!` on the radix, modelled by
`none`) exactly when the radix exceeds 36, for every byte and every `u8`
radix; for radix at most 36 it never panics. -/
theorem is_digit_panics_iff_radix_gt_36 (b r : Nat) (hb : b < 256) (hr : r < 256) :
    is_digit b r = none ↔ 36 < r := by
  constructor
  · intro hnone
    by_contra h36
    push_neg at h36
    revert hnone
    unfold is_digit
    by_cases h10 : 10 < r
    · simp only [if_pos h10, if_neg (by omega : ¬ 36 < r)]
      split <;> simp
    · simp [h10]
  · intro h36
    unfold is_digit
    simp [show 10 < r by omega, h36]

/-- Witness for claim C7 at byte `0x31` and radix 37. -/
theorem is_digit_panics_iff_radix_gt_36_witness :
    is_digit 0x31 37 = none :=
  (is_digit_panics_iff_radix_gt_36 0x31 37 (by decide) (by decide)).mpr (by decide)

/-- Claim C8: `TryFrom<u8>` returns `Ok` unconditionally (no table lookup)
for every byte in `0x00..=0x7F` and `0xA0..=0xFF`, returns `Undefined` for
`0x80..=0x9F`, and never returns `Invalid`. -/
theorem tryFromByte_no_invalid (b : Nat) (hb : b < 256) :
    ((0x80 ≤ b ∧ b ≤ 0x9F) → tryFromByte b = .error .Undefined) ∧
      (b ≤ 0x7F ∨ 0xA0 ≤ b → tryFromByte b = .ok ⟨b⟩) ∧
      tryFromByte b ≠ .error .Invalid := by
  refine ⟨fun h => ?_, fun h => ?_, ?_⟩ <;> unfold tryFromByte
  · rw [if_neg (by omega), if_pos (by omega)]
  · rcases h with h | h
    · rw [if_pos h]
    · rw [if_neg (by omega), if_neg (by omega)]
  · split
    · simp
    · split <;> simp

/-- Witness for claim C8 at the undefined byte `0x90`. -/
theorem tryFromByte_no_invalid_witness :
    tryFromByte 0x90 = .error .Undefined ∧ tryFromByte 0x90 ≠ .error .Invalid := by
  have h := tryFromByte_no_invalid 0x90 (by decide)
  exact ⟨h.1 (by decide), h.2.2⟩

/-- Claim C9: when the formatter requests a minimum field width but no
alignment, display emits exactly the content and no padding — the width is
ignored entirely. -/
theorem display_ignores_width_without_alignment
    (bytes : List Nat) (width : Option Nat) (fill : Nat) :
    isoStrDisplay bytes none width fill = writeChars bytes := rfl

/-- Claim C10: whenever `TryFrom<u8>` returns `Ok c`, converting `c` back
with `From<IsoLatin6Char> for u8` returns exactly the original byte. -/
theorem char_wrapper_preserves_byte (b : Nat) (c : IsoLatin6Char)
    (h : tryFromByte b = .ok c) : u8FromChar c = b := by
  unfold tryFromByte at h
  split at h
  · injection h with h2
    rw [← h2]
    rfl
  · split at h
    · exact Except.noConfusion h
    · injection h with h2
      rw [← h2]
      rfl

/-- Witness for claim C10 at byte `0xC6`. -/
theorem char_wrapper_preserves_byte_witness : u8FromChar ⟨0xC6⟩ = 0xC6 :=
  char_wrapper_preserves_byte 0xC6 ⟨0xC6⟩ rfl

end Iso885910
